import Mathlib

/-!
Verification development for the `auth-service` repository (Go).

The authentication core (`internal/logic/v1`, repository-injected
`AuthService`) is shallowly embedded below:

* Go `time.Time` becomes `Instant` (seconds + nanoseconds, compared
  lexicographically, exactly as `time.Time.After` does);
* the two repository interfaces (`domain.UserRepository`,
  `domain.SessionRepository`) become operations on an explicit `Store`
  state that also carries per-operation fault-injection flags, so that a
  store call can be made to fail exactly where the Go interface allows
  an error return;
* Go's wrapped sentinel errors become the inductive `AuthErr`; a raw
  repository error wrapped by `fmt.Errorf("...: %w", err)` (which matches
  no sentinel under `errors.Is`) becomes `AuthErr.persistence`;
* the bcrypt hasher is an external library (`golang.org/x/crypto/bcrypt`),
  not part of this repository's sources, and is modelled from the spec
  (see `MockDigest` below).

Each service operation takes the current time as an explicit argument
(one `Instant` per call, standing for the `time.Now()` reads inside the
call) and returns its result together with the updated store.
-/

/-- One instant of Go wall-clock time: seconds since the Unix epoch plus
a nanosecond part, mirroring `time.Time`'s (sec, nsec) representation. -/
structure Instant where
  sec : Int
  nsec : Int
deriving DecidableEq, Repr

/-- Go `t.After(u)`: strict lexicographic comparison of (sec, nsec). -/
def Instant.after (t u : Instant) : Bool :=
  t.sec > u.sec || (t.sec == u.sec && t.nsec > u.nsec)

/-- Go `t.Unix()`: the seconds field. -/
def Instant.unix (t : Instant) : Int := t.sec

/-- Go `t.Add(d)` for a whole-second duration `d` (the service only ever
adds `24 * time.Hour`). -/
def Instant.addSeconds (t : Instant) (s : Int) : Instant :=
  ⟨t.sec + s, t.nsec⟩

/-- The session lifetime used by `Login` and `Register`:
`24 * time.Hour`, in seconds. -/
def sessionLifetimeSeconds : Int := 24 * 3600

/-- Failure of `bcrypt.GenerateFromPassword` (entropy exhaustion / bad cost). -/
inductive HashErr
  | entropyFailure
deriving DecidableEq, Repr

/-- The reason `bcrypt.CompareHashAndPassword` returns a non-nil error:
either the password genuinely mismatches, or the stored digest is
malformed and could not be parsed at all. -/
inductive VerifyErr
  | mismatch
  | malformedHash
deriving DecidableEq, Repr

/-- Modelled from the spec: the Credential Hasher (§4.1).  The bcrypt
implementation (`golang.org/x/crypto/bcrypt`) is not under this
repository's sources, so the digest is modelled as an idealized salted
one-way value: `well salt p` is the digest produced by hashing plaintext
`p` with salt `salt`; `malformed raw` is a stored value that does not
parse as a digest.  The service code treats the digest as opaque and only
ever hands it back to `compareHashAndPassword`. -/
inductive MockDigest
  | well (salt : Nat) (plain : String)
  | malformed (raw : String)
deriving DecidableEq, Repr

/-- Modelled from the spec: `bcrypt.GenerateFromPassword`.  `entropyOk`
says whether salt entropy was available; `salt` is the salt that was
drawn.  Hashing the empty string is as legal as any other plaintext. -/
def generateFromPassword (entropyOk : Bool) (salt : Nat) (p : String) :
    Except HashErr MockDigest :=
  if entropyOk then .ok (.well salt p) else .error .entropyFailure

/-- Modelled from the spec: `bcrypt.CompareHashAndPassword`.  Returns
`none` on a match and `some reason` on any failure, exactly as the Go
function returns `nil` or a non-nil error. -/
def compareHashAndPassword (d : MockDigest) (p : String) : Option VerifyErr :=
  match d with
  | .well _ q => if q = p then none else some .mismatch
  | .malformed _ => some .malformedHash

/-- An error returned by a repository operation (the `error` result of a
store interface method).  `uniqueViolation` is the storage-level
uniqueness-constraint error a racing insert produces; `connFailure` is
any other infrastructure failure. -/
inductive StoreErr
  | uniqueViolation
  | connFailure
deriving DecidableEq, Repr

/-- Which service-level call site wrapped a raw store error
(the `fmt.Errorf` context strings in `auth_service.go`). -/
inductive StoreOp
  | queryUser
  | checkExisting
  | insertUser
  | querySession
deriving DecidableEq, Repr

/-- `domain.UserRow`: a user record as returned from the user store,
password hash included. -/
structure UserRow where
  ID : Int
  Username : String
  Email : String
  PasswordHash : MockDigest
deriving DecidableEq, Repr

/-- One row of the `sessions` table: owning user id, token, expiry. -/
structure SessionRec where
  userId : Int
  token : String
  expiresAt : Instant
deriving DecidableEq, Repr

/-- `domain.SessionRow`: the session-joined-with-user row returned by
the session store's `GetUserByToken`. -/
structure SessionRow where
  UserID : Int
  Username : String
  Email : String
  ExpiresAt : Instant
deriving DecidableEq, Repr

/-- `domain.User`: the public-safe user view (identifier rendered as a
string by `strconv.Itoa`, username, email — and nothing else). -/
structure User where
  ID : String
  Username : String
  Email : String
deriving DecidableEq, Repr

/-- `domain.AuthResponse`: token plus public user view. -/
structure AuthResponse where
  Token : String
  User : User
deriving DecidableEq, Repr

/-- `domain.LoginRequest`. -/
structure LoginRequest where
  Username : String
  Password : String
deriving DecidableEq, Repr

/-- `domain.RegisterRequest`. -/
structure RegisterRequest where
  Username : String
  Email : String
  Password : String
deriving DecidableEq, Repr

/-- The persistent state behind the two repository interfaces, plus
fault-injection flags: each flag, when `some e`, makes the corresponding
repository operation fail with error `e`, exercising the `error` return
of the Go interface.  `createCalls` counts invocations of the user
store's `Create`. -/
structure Store where
  users : List UserRow
  sessions : List SessionRec
  nextId : Int
  createCalls : Nat
  failGetByUsername : Option StoreErr
  failExists : Option StoreErr
  failCreateUser : Option StoreErr
  failUpdateLastLogin : Option StoreErr
  failCreateSession : Option StoreErr
  failGetUserByToken : Option StoreErr
deriving DecidableEq, Repr

/-- `UserRepository.GetByUsername`: first user matching the username, or
`none` when no user is found (a normal, non-error outcome). -/
def Store.GetByUsername (st : Store) (username : String) :
    Except StoreErr (Option UserRow) :=
  match st.failGetByUsername with
  | some e => .error e
  | none => .ok (st.users.find? (fun u => u.Username == username))

/-- `UserRepository.ExistsByUsernameOrEmail`:
`SELECT EXISTS(SELECT 1 FROM users WHERE username = $1 OR email = $2)`. -/
def Store.ExistsByUsernameOrEmail (st : Store) (username email : String) :
    Except StoreErr Bool :=
  match st.failExists with
  | some e => .error e
  | none => .ok (st.users.any (fun u => u.Username == username || u.Email == email))

/-- `UserRepository.Create`: insert a new user, returning the generated
id.  Every invocation bumps `createCalls`, whether or not it fails. -/
def Store.CreateUser (st : Store) (username email : String)
    (passwordHash : MockDigest) : Except StoreErr Int × Store :=
  let st1 : Store := { st with createCalls := st.createCalls + 1 }
  match st1.failCreateUser with
  | some e => (.error e, st1)
  | none =>
    let id := st1.nextId
    (.ok id,
     { st1 with
        users := st1.users ++ [⟨id, username, email, passwordHash⟩],
        nextId := id + 1 })

/-- `UserRepository.UpdateLastLogin`: sets `last_login = CURRENT_TIMESTAMP`.
The column is write-only within the authentication core, so only the
success/failure outcome is modelled. -/
def Store.UpdateLastLogin (st : Store) (_userID : Int) : Except StoreErr Unit :=
  match st.failUpdateLastLogin with
  | some e => .error e
  | none => .ok ()

/-- `SessionRepository.Create`:
`INSERT INTO sessions (user_id, token, expires_at) VALUES ($1, $2, $3)`. -/
def Store.CreateSession (st : Store) (userID : Int) (token : String)
    (expiresAt : Instant) : Except StoreErr Unit × Store :=
  match st.failCreateSession with
  | some e => (.error e, st)
  | none =>
    (.ok (), { st with sessions := st.sessions ++ [⟨userID, token, expiresAt⟩] })

/-- `SessionRepository.GetUserByToken`: the session row joined with its
owning user (`JOIN users u ON s.user_id = u.id WHERE s.token = $1`), or
`none` when the token matches no session. -/
def Store.GetUserByToken (st : Store) (token : String) :
    Except StoreErr (Option SessionRow) :=
  match st.failGetUserByToken with
  | some e => .error e
  | none =>
    match st.sessions.find? (fun s => s.token == token) with
    | none => .ok none
    | some s =>
      match st.users.find? (fun u => u.ID == s.userId) with
      | none => .ok none
      | some u => .ok (some ⟨u.ID, u.Username, u.Email, s.expiresAt⟩)

/-- The error taxonomy of the core, as seen through `errors.Is` on the
wrapped error a service method returns.  The first five constructors are
the sentinel errors of `errors.go` that the service actually returns;
`hashingFailed` is `Register`'s fatal wrap of a hasher failure, and
`persistence` is a raw repository error wrapped with call-site context —
both match no sentinel. -/
inductive AuthErr
  | userNotFound
  | invalidCredentials
  | userExists
  | sessionNotFound
  | sessionExpired
  | hashingFailed (e : HashErr)
  | persistence (op : StoreOp) (e : StoreErr)
deriving DecidableEq, Repr

/-- `errors.Is(err, ErrUserExists)` on a service error. -/
def AuthErr.isErrUserExists : AuthErr → Bool
  | .userExists => true
  | _ => false

/-- `errors.Is(err, ErrInvalidCredentials)` on a service error. -/
def AuthErr.isErrInvalidCredentials : AuthErr → Bool
  | .invalidCredentials => true
  | _ => false

/-- The session token the service fabricates:
`fmt.Sprintf("jwt-token-v1-%d-%d", userID, time.Now().Unix())`. -/
def tokenString (userID : Int) (now : Instant) : String :=
  "jwt-token-v1-" ++ toString userID ++ "-" ++ toString now.unix

/-- `AuthService.Login` (repository-injected variant).  Steps, exactly as
in the Go source: look up by username (store failure propagates wrapped;
absent row is `ErrUserNotFound`); verify the password (any non-nil
verify error is `ErrInvalidCredentials`); best-effort last-login update
(result observed, never propagated); fabricate the token; best-effort
session insert (result observed, never propagated); return token plus
public view built from the stored row. -/
def AuthService.Login (st : Store) (now : Instant) (req : LoginRequest) :
    Except AuthErr AuthResponse × Store :=
  match st.GetByUsername req.Username with
  | .error e => (.error (.persistence .queryUser e), st)
  | .ok none => (.error .userNotFound, st)
  | .ok (some row) =>
    match compareHashAndPassword row.PasswordHash req.Password with
    | some _ => (.error .invalidCredentials, st)
    | none =>
      let _updateResult := st.UpdateLastLogin row.ID
      let token := tokenString row.ID now
      let expiresAt := now.addSeconds sessionLifetimeSeconds
      let (_sessResult, st1) := st.CreateSession row.ID token expiresAt
      (.ok ⟨token, ⟨toString row.ID, row.Username, row.Email⟩⟩, st1)

/-- `AuthService.Register` (repository-injected variant).  Steps, exactly
as in the Go source: hash the password (failure is fatal, wrapped raw);
existence pre-check (store failure propagates wrapped; a hit is
`ErrUserExists`, returned before `Create` is ever called); insert the
user (failure propagates wrapped raw — no sentinel); fabricate the
token; best-effort session insert; return token plus public view echoing
the request. -/
def AuthService.Register (st : Store) (now : Instant) (entropyOk : Bool)
    (salt : Nat) (req : RegisterRequest) : Except AuthErr AuthResponse × Store :=
  match generateFromPassword entropyOk salt req.Password with
  | .error e => (.error (.hashingFailed e), st)
  | .ok passwordHash =>
    match st.ExistsByUsernameOrEmail req.Username req.Email with
    | .error e => (.error (.persistence .checkExisting e), st)
    | .ok true => (.error .userExists, st)
    | .ok false =>
      match st.CreateUser req.Username req.Email passwordHash with
      | (.error e, st1) => (.error (.persistence .insertUser e), st1)
      | (.ok userID, st1) =>
        let token := tokenString userID now
        let (_sessResult, st2) :=
          st1.CreateSession userID token (now.addSeconds sessionLifetimeSeconds)
        (.ok ⟨token, ⟨toString userID, req.Username, req.Email⟩⟩, st2)

/-- `AuthService.GetUserByToken` (`ResolveByToken`).  Steps, exactly as in
the Go source: joined lookup by token (store failure propagates wrapped;
absent is `ErrSessionNotFound`); expiry check `time.Now().After(expiresAt)`
(`ErrSessionExpired` when it fires); otherwise the public view from the
joined row.  The store is not mutated. -/
def AuthService.GetUserByToken (st : Store) (now : Instant) (token : String) :
    Except AuthErr User :=
  match st.GetUserByToken token with
  | .error e => .error (.persistence .querySession e)
  | .ok none => .error .sessionNotFound
  | .ok (some row) =>
    if now.after row.ExpiresAt then .error .sessionExpired
    else .ok ⟨toString row.UserID, row.Username, row.Email⟩

/-- Demo user mirroring the seed data: alice, id 1, password
`password123` hashed with some salt. -/
def aliceRow : UserRow :=
  ⟨1, "alice", "alice@example.com", .well 7 "password123"⟩

/-- A store holding only alice, with every fault flag off. -/
def stAlice : Store :=
  ⟨[aliceRow], [], 2, 0, none, none, none, none, none, none⟩

/-- A store whose only session is alice's token `tok`, expiring at the
instant ⟨2000, 0⟩. -/
def stSession : Store :=
  ⟨[aliceRow], [⟨1, "tok", ⟨2000, 0⟩⟩], 2, 0, none, none, none, none, none, none⟩

/-- A store holding alice in which the two best-effort operations
(last-login update, session insert) are set to fail. -/
def stFaulty : Store :=
  ⟨[aliceRow], [], 2, 0, none, none, none, some .connFailure,
    some .connFailure, none⟩

/-- A user whose stored password hash is not a parseable digest. -/
def malloryRow : UserRow :=
  ⟨3, "mallory", "mallory@example.com", .malformed "plaintext-junk"⟩

/-- A store holding only the user with the malformed stored digest. -/
def stMallory : Store :=
  ⟨[malloryRow], [], 4, 0, none, none, none, none, none, none⟩

/-- A store in which the user-store `Create` fails with the storage-level
uniqueness violation (the registration race). -/
def stRace : Store :=
  ⟨[], [], 1, 0, none, none, some .uniqueViolation, none, none, none⟩

/-- An empty, fully healthy store. -/
def stEmpty : Store :=
  ⟨[], [], 1, 0, none, none, none, none, none, none⟩

/-- If the username-or-email existence check over a user list comes back
false, then in particular no user in the list bears that username. -/
theorem find?_username_none_of_free (l : List UserRow) (un em : String)
    (h : l.any (fun u => u.Username == un || u.Email == em) = false) :
    l.find? (fun u => u.Username == un) = none := by
  rw [List.find?_eq_none]
  intro x hx
  rw [List.any_eq_false] at h
  have hx2 := h x hx
  simp only [Bool.or_eq_true, beq_iff_eq, not_or] at hx2
  simp only [beq_iff_eq]
  exact hx2.1

/-- `SessionRepository.Create` never touches the user table; it only (on
success) appends to the session table. -/
theorem CreateSession_users (st : Store) (uid : Int) (tok : String)
    (exp : Instant) :
    ((st.CreateSession uid tok exp).2).users = st.users := by
  unfold Store.CreateSession
  cases st.failCreateSession <;> simp

/-- `SessionRepository.Create` never touches the fault flags. -/
theorem CreateSession_failGetByUsername (st : Store) (uid : Int) (tok : String)
    (exp : Instant) :
    ((st.CreateSession uid tok exp).2).failGetByUsername =
      st.failGetByUsername := by
  unfold Store.CreateSession
  cases st.failCreateSession <;> simp

/-- Outcome of a successful `Register` at time `t1` followed by a `Login`
with the same username and password at time `t2`, starting from any
store in which the username and email are free and the user-store read
and write paths are healthy (the session-store and last-login flags are
unconstrained: those calls are best-effort).  Both calls succeed, both
return the public view of the newly created user, and each call's token
is `tokenString` of the new id and that call's time. -/
theorem register_then_login_outcome
    (st : Store) (t1 t2 : Instant) (salt : Nat) (un em pw : String)
    (hex : st.failExists = none) (hcu : st.failCreateUser = none)
    (hq : st.failGetByUsername = none)
    (hfree : st.users.any (fun u => u.Username == un || u.Email == em) = false) :
    (AuthService.Register st t1 true salt ⟨un, em, pw⟩).1 =
      .ok ⟨tokenString st.nextId t1, ⟨toString st.nextId, un, em⟩⟩ ∧
    (AuthService.Login (AuthService.Register st t1 true salt ⟨un, em, pw⟩).2 t2
        ⟨un, pw⟩).1 =
      .ok ⟨tokenString st.nextId t2, ⟨toString st.nextId, un, em⟩⟩ := by
  have hfind : st.users.find? (fun u => u.Username == un) = none :=
    find?_username_none_of_free st.users un em hfree
  constructor
  · simp only [AuthService.Register, generateFromPassword, if_true,
      Store.ExistsByUsernameOrEmail, hex, hfree, Store.CreateUser, hcu]
  · simp only [AuthService.Register, generateFromPassword, if_true,
      Store.ExistsByUsernameOrEmail, hex, hfree, Store.CreateUser, hcu,
      AuthService.Login, Store.GetByUsername,
      CreateSession_users, CreateSession_failGetByUsername, hq, hfind,
      List.find?_append, List.find?_cons, Option.none_or]
    simp [compareHashAndPassword, hfind]

/-- C1: in `Login`, an absent user yields the `UserNotFound` kind, a
present user whose password verification fails (mismatch or otherwise)
yields the `InvalidCredentials` kind, and the two kinds are distinct. -/
theorem login_error_kinds
    (stA stB : Store) (tA tB : Instant) (reqA reqB : LoginRequest)
    (row : UserRow) (e : VerifyErr)
    (hqA : stA.failGetByUsername = none)
    (habsent : stA.users.find? (fun u => u.Username == reqA.Username) = none)
    (hqB : stB.failGetByUsername = none)
    (hrow : stB.users.find? (fun u => u.Username == reqB.Username) = some row)
    (hv : compareHashAndPassword row.PasswordHash reqB.Password = some e) :
    (AuthService.Login stA tA reqA).1 = .error .userNotFound ∧
    (AuthService.Login stB tB reqB).1 = .error .invalidCredentials ∧
    AuthErr.userNotFound ≠ AuthErr.invalidCredentials := by
  refine ⟨?_, ?_, by simp⟩
  · simp [AuthService.Login, Store.GetByUsername, hqA, habsent]
  · simp [AuthService.Login, Store.GetByUsername, hqB, hrow, hv]

/-- Witness for C1: unknown user `bob`, and alice with a wrong password. -/
theorem login_error_kinds_witness :
    (AuthService.Login stAlice ⟨1000000, 0⟩ ⟨"bob", "password123"⟩).1 =
      .error .userNotFound ∧
    (AuthService.Login stAlice ⟨1000000, 0⟩ ⟨"alice", "wrongpass"⟩).1 =
      .error .invalidCredentials ∧
    AuthErr.userNotFound ≠ AuthErr.invalidCredentials :=
  login_error_kinds stAlice stAlice ⟨1000000, 0⟩ ⟨1000000, 0⟩
    ⟨"bob", "password123"⟩ ⟨"alice", "wrongpass"⟩ aliceRow .mismatch
    rfl rfl rfl rfl rfl

/-- C2 counterexample: at an instant exactly equal to the session's
expiry timestamp the current time is *not* strictly before the expiry,
yet `GetUserByToken` succeeds (Go's `time.Now().After(expiresAt)` is
false on equality), so the claim's "not strictly before ⇒ SessionExpired"
fails. -/
theorem resolve_at_exact_expiry_succeeds :
    AuthService.GetUserByToken stSession ⟨2000, 0⟩ "tok" =
      .ok ⟨"1", "alice", "alice@example.com"⟩ ∧
    AuthService.GetUserByToken stSession ⟨2000, 0⟩ "tok" ≠
      .error .sessionExpired := by
  have h1 : AuthService.GetUserByToken stSession ⟨2000, 0⟩ "tok" =
      .ok ⟨"1", "alice", "alice@example.com"⟩ := rfl
  exact ⟨h1, by rw [h1]; exact fun h => Except.noConfusion h⟩

/-- C2 (amended): `GetUserByToken` fails with `SessionNotFound` when the
token matches no session; when a session is found it fails with
`SessionExpired` exactly when the current time is strictly *after* the
expiry (at or before the expiry instant it succeeds), returning the
public view assembled from the joined row. -/
theorem getUserByToken_outcomes
    (stA stB stC : Store) (tA tB tC : Instant) (tokA tokB tokC : String)
    (rowB rowC : SessionRow)
    (hA : stA.GetUserByToken tokA = .ok none)
    (hB : stB.GetUserByToken tokB = .ok (some rowB))
    (hBexp : tB.after rowB.ExpiresAt = true)
    (hC : stC.GetUserByToken tokC = .ok (some rowC))
    (hCok : tC.after rowC.ExpiresAt = false) :
    AuthService.GetUserByToken stA tA tokA = .error .sessionNotFound ∧
    AuthService.GetUserByToken stB tB tokB = .error .sessionExpired ∧
    AuthService.GetUserByToken stC tC tokC =
      .ok ⟨toString rowC.UserID, rowC.Username, rowC.Email⟩ := by
  refine ⟨?_, ?_, ?_⟩
  · simp [AuthService.GetUserByToken, hA]
  · simp [AuthService.GetUserByToken, hB, hBexp]
  · simp [AuthService.GetUserByToken, hC, hCok]

/-- Witness for C2 (amended): a never-issued token, an expired token one
second past expiry, and a live token one second before expiry. -/
theorem getUserByToken_outcomes_witness :
    AuthService.GetUserByToken stSession ⟨1999, 0⟩ "bogus-token" =
      .error .sessionNotFound ∧
    AuthService.GetUserByToken stSession ⟨2001, 0⟩ "tok" =
      .error .sessionExpired ∧
    AuthService.GetUserByToken stSession ⟨1999, 0⟩ "tok" =
      .ok ⟨toString (1 : Int), "alice", "alice@example.com"⟩ :=
  getUserByToken_outcomes stSession stSession stSession
    ⟨1999, 0⟩ ⟨2001, 0⟩ ⟨1999, 0⟩ "bogus-token" "tok" "tok"
    ⟨1, "alice", "alice@example.com", ⟨2000, 0⟩⟩
    ⟨1, "alice", "alice@example.com", ⟨2000, 0⟩⟩
    rfl rfl rfl rfl rfl

/-- C3: when the existence pre-check reports a hit, `Register` fails with
the `UserAlreadyExists` kind, the user store's `Create` is never invoked
(its call counter is unchanged), and no identity record is inserted —
indeed the whole store state is untouched. -/
theorem register_conflict_no_insert
    (st : Store) (now : Instant) (salt : Nat) (req : RegisterRequest)
    (hex : st.failExists = none)
    (hexists : st.users.any
        (fun u => u.Username == req.Username || u.Email == req.Email) = true) :
    (AuthService.Register st now true salt req).1 = .error .userExists ∧
    (AuthService.Register st now true salt req).2.createCalls =
      st.createCalls ∧
    (AuthService.Register st now true salt req).2.users = st.users := by
  refine ⟨?_, ?_, ?_⟩ <;>
    simp [AuthService.Register, generateFromPassword,
      Store.ExistsByUsernameOrEmail, hex, hexists]

/-- Witness for C3: registering a second `alice` against the seeded
store conflicts without touching the store. -/
theorem register_conflict_no_insert_witness :
    (AuthService.Register stAlice ⟨1000, 0⟩ true 3
        ⟨"alice", "other@example.com", "pw"⟩).1 = .error .userExists ∧
    (AuthService.Register stAlice ⟨1000, 0⟩ true 3
        ⟨"alice", "other@example.com", "pw"⟩).2.createCalls =
      stAlice.createCalls ∧
    (AuthService.Register stAlice ⟨1000, 0⟩ true 3
        ⟨"alice", "other@example.com", "pw"⟩).2.users = stAlice.users :=
  register_conflict_no_insert stAlice ⟨1000, 0⟩ 3
    ⟨"alice", "other@example.com", "pw"⟩ rfl rfl

/-- C4: once `Login` has verified the credentials (respectively once
`Register` has inserted the identity), a failing last-login update and a
failing session insert do not fail the call: it still returns success
carrying the generated token, even though the session was not persisted
(the session table is unchanged). -/
theorem best_effort_failures_nonfatal
    (st : Store) (now : Instant) (req : LoginRequest)
    (regReq : RegisterRequest) (salt : Nat) (row : UserRow)
    (e1 e2 : StoreErr)
    (hq : st.failGetByUsername = none)
    (hrow : st.users.find? (fun u => u.Username == req.Username) = some row)
    (hv : compareHashAndPassword row.PasswordHash req.Password = none)
    (hul : st.failUpdateLastLogin = some e1)
    (hcs : st.failCreateSession = some e2)
    (hex : st.failExists = none)
    (hfree : st.users.any
        (fun u => u.Username == regReq.Username || u.Email == regReq.Email)
        = false)
    (hcu : st.failCreateUser = none) :
    ((AuthService.Login st now req).1 =
        .ok ⟨tokenString row.ID now,
              ⟨toString row.ID, row.Username, row.Email⟩⟩ ∧
      (AuthService.Login st now req).2.sessions = st.sessions) ∧
    ((AuthService.Register st now true salt regReq).1 =
        .ok ⟨tokenString st.nextId now,
              ⟨toString st.nextId, regReq.Username, regReq.Email⟩⟩ ∧
      (AuthService.Register st now true salt regReq).2.sessions =
        st.sessions) := by
  refine ⟨⟨?_, ?_⟩, ?_, ?_⟩ <;>
    simp [AuthService.Login, AuthService.Register, Store.GetByUsername,
      Store.ExistsByUsernameOrEmail, Store.CreateUser, Store.CreateSession,
      generateFromPassword, hq, hrow, hv, hcs, hex, hfree, hcu]

/-- Witness for C4: both best-effort operations fail, yet alice's login
and bob's registration both succeed with their tokens, and no session
row lands in the store. -/
theorem best_effort_failures_nonfatal_witness :
    ((AuthService.Login stFaulty ⟨1000, 0⟩ ⟨"alice", "password123"⟩).1 =
        .ok ⟨tokenString aliceRow.ID ⟨1000, 0⟩,
              ⟨toString aliceRow.ID, aliceRow.Username, aliceRow.Email⟩⟩ ∧
      (AuthService.Login stFaulty ⟨1000, 0⟩
          ⟨"alice", "password123"⟩).2.sessions = stFaulty.sessions) ∧
    ((AuthService.Register stFaulty ⟨1000, 0⟩ true 3
          ⟨"bob", "bob@example.com", "hunter2"⟩).1 =
        .ok ⟨tokenString stFaulty.nextId ⟨1000, 0⟩,
              ⟨toString stFaulty.nextId, "bob", "bob@example.com"⟩⟩ ∧
      (AuthService.Register stFaulty ⟨1000, 0⟩ true 3
          ⟨"bob", "bob@example.com", "hunter2"⟩).2.sessions =
        stFaulty.sessions) :=
  best_effort_failures_nonfatal stFaulty ⟨1000, 0⟩ ⟨"alice", "password123"⟩
    ⟨"bob", "bob@example.com", "hunter2"⟩ 3 aliceRow .connFailure .connFailure
    rfl rfl rfl rfl rfl rfl rfl rfl

/-- C5: hashing round-trips — verifying a freshly produced digest against
the hashed plaintext matches, and against any other plaintext reports a
mismatch; consequently a successful `Register` immediately followed by a
`Login` with the same username and password succeeds.  (The hasher is
the spec-modelled ideal hasher; bcrypt itself is outside this
repository's sources.) -/
theorem hash_roundtrip_and_register_login
    (salt : Nat) (p p2 : String) (st : Store) (t1 t2 : Instant)
    (un em pw : String)
    (hp : p ≠ "") (hne : p ≠ p2)
    (hex : st.failExists = none) (hcu : st.failCreateUser = none)
    (hq : st.failGetByUsername = none)
    (hfree : st.users.any (fun u => u.Username == un || u.Email == em)
        = false) :
    ((generateFromPassword true salt p).map
        (fun d => compareHashAndPassword d p) = .ok none) ∧
    ((generateFromPassword true salt p).map
        (fun d => compareHashAndPassword d p2) = .ok (some .mismatch)) ∧
    (AuthService.Register st t1 true salt ⟨un, em, pw⟩).1 =
      .ok ⟨tokenString st.nextId t1, ⟨toString st.nextId, un, em⟩⟩ ∧
    (AuthService.Login ((AuthService.Register st t1 true salt
        ⟨un, em, pw⟩).2) t2 ⟨un, pw⟩).1 =
      .ok ⟨tokenString st.nextId t2, ⟨toString st.nextId, un, em⟩⟩ := by
  obtain ⟨h1, h2⟩ :=
    register_then_login_outcome st t1 t2 salt un em pw hex hcu hq hfree
  refine ⟨?_, ?_, h1, h2⟩
  · simp [generateFromPassword, compareHashAndPassword, Except.map]
  · simp [generateFromPassword, compareHashAndPassword, Except.map, hne]

/-- Witness for C5: hashing `password123` round-trips, rejects
`wrongpass`, and alice's register-then-login on the empty store
succeeds. -/
theorem hash_roundtrip_and_register_login_witness :
    ((generateFromPassword true 7 "password123").map
        (fun d => compareHashAndPassword d "password123") = .ok none) ∧
    ((generateFromPassword true 7 "password123").map
        (fun d => compareHashAndPassword d "wrongpass") =
      .ok (some .mismatch)) ∧
    (AuthService.Register stEmpty ⟨9000, 0⟩ true 7
        ⟨"alice", "alice@example.com", "password123"⟩).1 =
      .ok ⟨tokenString stEmpty.nextId ⟨9000, 0⟩,
            ⟨toString stEmpty.nextId, "alice", "alice@example.com"⟩⟩ ∧
    (AuthService.Login ((AuthService.Register stEmpty ⟨9000, 0⟩ true 7
        ⟨"alice", "alice@example.com", "password123"⟩).2) ⟨9001, 0⟩
        ⟨"alice", "password123"⟩).1 =
      .ok ⟨tokenString stEmpty.nextId ⟨9001, 0⟩,
            ⟨toString stEmpty.nextId, "alice", "alice@example.com"⟩⟩ :=
  hash_roundtrip_and_register_login 7 "password123" "wrongpass" stEmpty
    ⟨9000, 0⟩ ⟨9001, 0⟩ "alice" "alice@example.com" "password123"
    (by decide) (by decide) rfl rfl rfl rfl

/-- C6 counterexample: on the empty store, registering alice at Unix
second 5000 and logging in later within the same second both return the
very same token `jwt-token-v1-1-5000` — the token embeds only the user
id and the Unix second, so the claimed uniqueness fails. -/
theorem register_then_login_same_second_token :
    (AuthService.Register stEmpty ⟨5000, 0⟩ true 3
        ⟨"alice", "alice@example.com", "password123"⟩).1 =
      .ok ⟨"jwt-token-v1-1-5000", ⟨"1", "alice", "alice@example.com"⟩⟩ ∧
    (AuthService.Login
        (AuthService.Register stEmpty ⟨5000, 0⟩ true 3
            ⟨"alice", "alice@example.com", "password123"⟩).2
        ⟨5000, 999999999⟩ ⟨"alice", "password123"⟩).1 =
      .ok ⟨"jwt-token-v1-1-5000", ⟨"1", "alice", "alice@example.com"⟩⟩ :=
  ⟨rfl, rfl⟩

/-- C6 (amended): the token is a deterministic function of the user id
and the Unix second of issuance only, so a `Login` in the same Unix
second as the `Register` that created the user returns the *identical*
token; tokens differ only across different Unix seconds or different
users (as in the spec's one-second-later scenario). -/
theorem token_repeats_within_second
    (st : Store) (t : Instant) (n : Int) (salt : Nat) (un em pw : String)
    (hex : st.failExists = none) (hcu : st.failCreateUser = none)
    (hq : st.failGetByUsername = none)
    (hfree : st.users.any (fun u => u.Username == un || u.Email == em)
        = false) :
    (AuthService.Register st t true salt ⟨un, em, pw⟩).1 =
      .ok ⟨tokenString st.nextId t, ⟨toString st.nextId, un, em⟩⟩ ∧
    (AuthService.Login ((AuthService.Register st t true salt
        ⟨un, em, pw⟩).2) ⟨t.sec, n⟩ ⟨un, pw⟩).1 =
      .ok ⟨tokenString st.nextId t, ⟨toString st.nextId, un, em⟩⟩ :=
  register_then_login_outcome st t ⟨t.sec, n⟩ salt un em pw hex hcu hq hfree

/-- Witness for C6 (amended): same-second login replays the token. -/
theorem token_repeats_within_second_witness :
    (AuthService.Register stEmpty ⟨5000, 0⟩ true 3
        ⟨"carol", "carol@example.com", "pw"⟩).1 =
      .ok ⟨tokenString stEmpty.nextId ⟨5000, 0⟩,
            ⟨toString stEmpty.nextId, "carol", "carol@example.com"⟩⟩ ∧
    (AuthService.Login ((AuthService.Register stEmpty ⟨5000, 0⟩ true 3
        ⟨"carol", "carol@example.com", "pw"⟩).2) ⟨5000, 42⟩
        ⟨"carol", "pw"⟩).1 =
      .ok ⟨tokenString stEmpty.nextId ⟨5000, 0⟩,
            ⟨toString stEmpty.nextId, "carol", "carol@example.com"⟩⟩ :=
  token_repeats_within_second stEmpty ⟨5000, 0⟩ 42 3 "carol"
    "carol@example.com" "pw" rfl rfl rfl rfl

/-- C7 counterexample: mallory's stored digest is malformed, so
verification fails with `malformedHash` — a reason other than a wrong
password — yet `Login` returns the very `InvalidCredentials` kind used
for a plain mismatch, not a distinct kind. -/
theorem malformed_digest_collapses_to_invalidCredentials :
    compareHashAndPassword malloryRow.PasswordHash "whatever" =
      some .malformedHash ∧
    (AuthService.Login stMallory ⟨1000, 0⟩ ⟨"mallory", "whatever"⟩).1 =
      .error .invalidCredentials := ⟨rfl, rfl⟩

/-- C7 (amended): `Login` collapses *every* password-verification
failure — plain mismatch and malformed stored digest alike — into the
single `InvalidCredentials` kind; no distinct error kind for a verify
failure exists in the login path. -/
theorem login_verify_failure_same_kind
    (st : Store) (now : Instant) (req : LoginRequest) (row : UserRow)
    (e : VerifyErr)
    (hq : st.failGetByUsername = none)
    (hrow : st.users.find? (fun u => u.Username == req.Username) = some row)
    (hv : compareHashAndPassword row.PasswordHash req.Password = some e) :
    (AuthService.Login st now req).1 = .error .invalidCredentials := by
  simp [AuthService.Login, Store.GetByUsername, hq, hrow, hv]

/-- Witness for C7 (amended): the malformed-digest user login maps to
`InvalidCredentials`. -/
theorem login_verify_failure_same_kind_witness :
    (AuthService.Login stMallory ⟨1000, 0⟩ ⟨"mallory", "whatever"⟩).1 =
      .error .invalidCredentials :=
  login_verify_failure_same_kind stMallory ⟨1000, 0⟩ ⟨"mallory", "whatever"⟩
    malloryRow .malformedHash rfl rfl rfl

/-- C8 counterexample: the user store's `Create` fails with the
storage-level uniqueness violation — the detectable race case — yet
`Register` propagates it as a generic wrapped persistence failure that
does not match `ErrUserExists` under `errors.Is`. -/
theorem create_race_not_classified_userExists :
    (AuthService.Register stRace ⟨1000, 0⟩ true 3
        ⟨"alice", "alice@example.com", "pw"⟩).1 =
      .error (.persistence .insertUser .uniqueViolation) ∧
    (AuthErr.persistence .insertUser .uniqueViolation).isErrUserExists =
      false := ⟨rfl, rfl⟩

/-- C8 (amended): when the existence pre-check passes but the user
store's `Create` fails, `Register` always propagates the failure as a
generic persistence failure wrapping the store's error — it contains no
detection of uniqueness violations, so even a detectable violation is
never surfaced as the `UserAlreadyExists` kind. -/
theorem register_create_failure_generic
    (st : Store) (now : Instant) (salt : Nat) (req : RegisterRequest)
    (e : StoreErr)
    (hex : st.failExists = none)
    (hfree : st.users.any
        (fun u => u.Username == req.Username || u.Email == req.Email)
        = false)
    (hcu : st.failCreateUser = some e) :
    (AuthService.Register st now true salt req).1 =
      .error (.persistence .insertUser e) ∧
    ∀ err, (AuthService.Register st now true salt req).1 = .error err →
      err.isErrUserExists = false := by
  have h1 : (AuthService.Register st now true salt req).1 =
      .error (.persistence .insertUser e) := by
    simp [AuthService.Register, generateFromPassword,
      Store.ExistsByUsernameOrEmail, Store.CreateUser, hex, hfree, hcu]
  refine ⟨h1, ?_⟩
  intro err herr
  rw [h1] at herr
  cases herr
  rfl

/-- Witness for C8 (amended): the racing unique violation comes back as
the generic wrapped store error. -/
theorem register_create_failure_generic_witness :
    (AuthService.Register stRace ⟨1000, 0⟩ true 3
        ⟨"bob", "bob@example.com", "pw"⟩).1 =
      .error (.persistence .insertUser .uniqueViolation) ∧
    ∀ err, (AuthService.Register stRace ⟨1000, 0⟩ true 3
        ⟨"bob", "bob@example.com", "pw"⟩).1 = .error err →
      err.isErrUserExists = false :=
  register_create_failure_generic stRace ⟨1000, 0⟩ 3
    ⟨"bob", "bob@example.com", "pw"⟩ .uniqueViolation rfl rfl rfl

/-- C9: each successful operation returns only the token (where
applicable) and the public-safe view of exactly identifier, username and
email; the values are drawn from the stored row (`Login`), the request
plus the new id (`Register`), or the joined row (`GetUserByToken`), and
the token from the id and time only — the stored password hash reaches
no output. -/
theorem outputs_are_public_view_only
    (st : Store) (now : Instant) (req : LoginRequest)
    (regReq : RegisterRequest) (salt : Nat) (row : UserRow)
    (srow : SessionRow) (token : String)
    (hq : st.failGetByUsername = none)
    (hrow : st.users.find? (fun u => u.Username == req.Username) = some row)
    (hv : compareHashAndPassword row.PasswordHash req.Password = none)
    (hex : st.failExists = none)
    (hfree : st.users.any
        (fun u => u.Username == regReq.Username || u.Email == regReq.Email)
        = false)
    (hcu : st.failCreateUser = none)
    (hs : st.GetUserByToken token = .ok (some srow))
    (hexp : now.after srow.ExpiresAt = false) :
    (AuthService.Login st now req).1 =
      .ok ⟨tokenString row.ID now,
            ⟨toString row.ID, row.Username, row.Email⟩⟩ ∧
    (AuthService.Register st now true salt regReq).1 =
      .ok ⟨tokenString st.nextId now,
            ⟨toString st.nextId, regReq.Username, regReq.Email⟩⟩ ∧
    AuthService.GetUserByToken st now token =
      .ok ⟨toString srow.UserID, srow.Username, srow.Email⟩ := by
  refine ⟨?_, ?_, ?_⟩
  · simp [AuthService.Login, Store.GetByUsername, Store.CreateSession,
      hq, hrow, hv]
  · simp [AuthService.Register, generateFromPassword,
      Store.ExistsByUsernameOrEmail, Store.CreateUser, Store.CreateSession,
      hex, hfree, hcu]
  · simp [AuthService.GetUserByToken, hs, hexp]

/-- Witness for C9: alice's login, bob's registration and alice's token
resolution on a live session, all returning only the three public
fields plus the token. -/
theorem outputs_are_public_view_only_witness :
    (AuthService.Login stSession ⟨1500, 0⟩ ⟨"alice", "password123"⟩).1 =
      .ok ⟨tokenString aliceRow.ID ⟨1500, 0⟩,
            ⟨toString aliceRow.ID, aliceRow.Username, aliceRow.Email⟩⟩ ∧
    (AuthService.Register stSession ⟨1500, 0⟩ true 3
        ⟨"bob", "bob@example.com", "hunter2"⟩).1 =
      .ok ⟨tokenString stSession.nextId ⟨1500, 0⟩,
            ⟨toString stSession.nextId, "bob", "bob@example.com"⟩⟩ ∧
    AuthService.GetUserByToken stSession ⟨1500, 0⟩ "tok" =
      .ok ⟨toString (1 : Int), "alice", "alice@example.com"⟩ :=
  outputs_are_public_view_only stSession ⟨1500, 0⟩ ⟨"alice", "password123"⟩
    ⟨"bob", "bob@example.com", "hunter2"⟩ 3 aliceRow
    ⟨1, "alice", "alice@example.com", ⟨2000, 0⟩⟩ "tok"
    rfl rfl rfl rfl rfl rfl rfl rfl

/-- C10: the core performs no input validation before hashing: with any
free username and email, `Register` with the empty-string password
succeeds (the empty string is hashed like any other plaintext), and a
subsequent `Login` with that username and the empty-string password
succeeds as well. -/
theorem register_login_empty_password
    (st : Store) (t1 t2 : Instant) (salt : Nat) (un em : String)
    (hex : st.failExists = none) (hcu : st.failCreateUser = none)
    (hq : st.failGetByUsername = none)
    (hfree : st.users.any (fun u => u.Username == un || u.Email == em)
        = false) :
    (AuthService.Register st t1 true salt ⟨un, em, ""⟩).1 =
      .ok ⟨tokenString st.nextId t1, ⟨toString st.nextId, un, em⟩⟩ ∧
    (AuthService.Login ((AuthService.Register st t1 true salt
        ⟨un, em, ""⟩).2) t2 ⟨un, ""⟩).1 =
      .ok ⟨tokenString st.nextId t2, ⟨toString st.nextId, un, em⟩⟩ :=
  register_then_login_outcome st t1 t2 salt un em "" hex hcu hq hfree

/-- Witness for C10: dave registers with an empty password and logs in
with it one second later. -/
theorem register_login_empty_password_witness :
    (AuthService.Register stEmpty ⟨7000, 0⟩ true 3
        ⟨"dave", "dave@example.com", ""⟩).1 =
      .ok ⟨tokenString stEmpty.nextId ⟨7000, 0⟩,
            ⟨toString stEmpty.nextId, "dave", "dave@example.com"⟩⟩ ∧
    (AuthService.Login ((AuthService.Register stEmpty ⟨7000, 0⟩ true 3
        ⟨"dave", "dave@example.com", ""⟩).2) ⟨7001, 0⟩ ⟨"dave", ""⟩).1 =
      .ok ⟨tokenString stEmpty.nextId ⟨7001, 0⟩,
            ⟨toString stEmpty.nextId, "dave", "dave@example.com"⟩⟩ :=
  register_login_empty_password stEmpty ⟨7000, 0⟩ ⟨7001, 0⟩ 3 "dave"
    "dave@example.com" rfl rfl rfl rfl
